import Mathlib

/-!
# GoDash — verification of the panel/calendar/persistence claims

Shallow embedding of the parts of the GoDash terminal dashboard that the
claims concern:

* the calendar widget's month cache / cooldown-gated fetch policy and its
  daily event filter (`widgets/calendar`, function `Update` and
  `filterEventsForSelectedDate`);
* the todo panel's Adding/Editing confirm step (`widgets/todo`, `Update`);
* the top-level dashboard dispatch and mouse-click focus resolution
  (`main.go`, `updateDashboard` and `viewDashboard`);
* settings loading (`internal/config`, `LoadSettings`) and task loading
  (`widgets/todo`, `loadTasks`);
* the notes widget's first-run seeding (`widgets/notes`, functions
  `loadNotes`, `createDefaultNotes` and `sanitizeFilename`).

Go machine integers stay within range everywhere the embedded code runs
(dimensions, nanosecond timestamps), so they are modelled as `Nat`/`Int`.
External library collaborators (`time.Parse`, `encoding/json`) are taken as
parameters of the embedded functions; the facts the claims need about them
are stated as explicit hypotheses.
-/

/-- A calendar day: the (Year, Month, Day) triple of a Go `time.Time`.
Only these three components are ever compared by the embedded code. -/
structure Date where
  year : Nat
  month : Nat
  day : Nat
deriving DecidableEq, Repr

/-- The comparison `a.Day() == b.Day() && a.Month() == b.Month() &&
a.Year() == b.Year()` used (negated) in the calendar `Update` and in
`filterEventsForSelectedDate`. -/
def sameYMD (a b : Date) : Bool :=
  a.day == b.day && a.month == b.month && a.year == b.year

/-- Left-pad a string with `'0'` up to width `w`, as Go's `Format` verbs
`"2006"` and `"01"` do for year and month. -/
def padZeros (w : Nat) (s : String) : String :=
  if s.length < w then String.mk (List.replicate (w - s.length) '0') ++ s else s

/-- `t.Format("2006-01")`: the canonical "YYYY-MM" month key. -/
def monthKey (d : Date) : String :=
  padZeros 4 (toString d.year) ++ "-" ++ padZeros 2 (toString d.month)

/-- A Go `map[string]α` as an association list: `mapGet` is indexing. -/
def mapGet {α : Type} : List (String × α) → String → Option α
  | [], _ => none
  | (k', v) :: rest, k => if k' = k then some v else mapGet rest k

/-- Go map assignment `m[k] = v` (replace or insert). -/
def mapSet {α : Type} : List (String × α) → String → α → List (String × α)
  | [], k, v => [(k, v)]
  | (k', v') :: rest, k, v =>
    if k' = k then (k, v) :: rest else (k', v') :: mapSet rest k v

/-- Reading a `map[string]bool`: a missing key reads as `false`, as in Go
(`m.fetchingMonths[monthKey]`). -/
def boolMapGet (m : List (String × Bool)) (k : String) : Bool :=
  (mapGet m k).getD false

/-- The `Start` field of a Google Calendar event: a (possibly empty) RFC3339
timestamp `DateTime` and a (possibly empty) all-day `Date` string. -/
structure EventStart where
  dateTime : String
  date : String
deriving DecidableEq, Repr

/-- The fields of `calendar.Event` the widget reads. -/
structure Event where
  summary : String
  start : EventStart
deriving DecidableEq, Repr

/-- The two `time.Parse` calls of `filterEventsForSelectedDate`, as abstract
collaborators: `parseRFC3339` is `time.Parse(time.RFC3339, ·)` and
`parseDateOnly` is `time.Parse("2006-01-02", ·)`, each returning the
(Year, Month, Day) of the parsed instant, or `none` on a parse error. -/
structure ParseFuns where
  parseRFC3339 : String → Option Date
  parseDateOnly : String → Option Date

/-- The start date of an event per `filterEventsForSelectedDate`: the
`DateTime` field is parsed as RFC3339 when non-empty, otherwise the `Date`
field is parsed as "2006-01-02". -/
def eventStartDate (P : ParseFuns) (e : Event) : Option Date :=
  if e.start.dateTime ≠ "" then P.parseRFC3339 e.start.dateTime
  else P.parseDateOnly e.start.date

/-- The accumulation loop of `filterEventsForSelectedDate`: walk the cached
month's events in order; an unparseable start `continue`s, a start on the
selected day appends the event to `dailyEvents`. -/
def dailyEvents (P : ParseFuns) (sel : Date) : List Event → List Event
  | [] => []
  | e :: rest =>
    match eventStartDate P e with
    | none => dailyEvents P sel rest
    | some d =>
      if sameYMD d sel then e :: dailyEvents P sel rest
      else dailyEvents P sel rest

/-- The calendar widget state (`calendar.Model`), restricted to the fields
the fetch policy and the daily filter read or write. `lastFetchTime` is in
nanoseconds, the unit of Go's `time.Duration`. -/
structure CalModel where
  cachedEvents : List (String × List Event)
  fetchingMonths : List (String × Bool)
  lastFetchTime : Int
  selectedDate : Date
  events : List Event
  loading : Bool

/-- `fetchCoolDown = 5 * time.Second`, in nanoseconds. -/
def fetchCoolDown : Int := 5 * 1000000000

/-- `Model.filterEventsForSelectedDate`: recompute `events` from the cache
entry for the selected date's month (or `nil` when the month is uncached). -/
def filterEventsForSelectedDate (P : ParseFuns) (m : CalModel) : CalModel :=
  match mapGet m.cachedEvents (monthKey m.selectedDate) with
  | some monthlyEvents => { m with events := dailyEvents P m.selectedDate monthlyEvents }
  | none => { m with events := [] }

/-- The date-navigation branch of the calendar `Update` (focused,
`StateReady`, after the datepicker has moved to `newDate` at wall-clock time
`now`): if the day changed, update `selectedDate`; on a cache hit refilter
and stop loading; otherwise initiate a fetch only when the month is not
in-flight and more than `fetchCoolDown` has elapsed since the last
initiation, marking the month in-flight and recording `now`. The returned
`Bool` is whether a fetch command (`FetchEventsForMonth`) was issued. -/
def navStep (P : ParseFuns) (m : CalModel) (newDate : Date) (now : Int) :
    CalModel × Bool :=
  if sameYMD newDate m.selectedDate then (m, false)
  else
    let m1 : CalModel := { m with selectedDate := newDate }
    let mk : String := monthKey newDate
    match mapGet m1.cachedEvents mk with
    | some _ => ({ filterEventsForSelectedDate P m1 with loading := false }, false)
    | none =>
      if boolMapGet m1.fetchingMonths mk = false ∧ now - m1.lastFetchTime > fetchCoolDown then
        ({ m1 with
            loading := true
            fetchingMonths := mapSet m1.fetchingMonths mk true
            lastFetchTime := now }, true)
      else (m1, false)

/-! ## Todo panel (`widgets/todo/todo.go`) -/

/-- The todo panel's sub-state (`ListState`). -/
inductive ListState where
  | default
  | adding
  | editing
deriving DecidableEq, Repr

/-- A persisted task (`type task`). -/
structure TodoTask where
  title : String
  description : String
  done : Bool
deriving DecidableEq, Repr

/-- The todo panel state (`todo.Model`): the list items, the list cursor
(`List.Index()`), the text input's current value, and the sub-state. -/
structure TodoModel where
  items : List TodoTask
  index : Nat
  input : String
  state : ListState
deriving DecidableEq, Repr

/-- `m.List.SelectedItem().(task)`: the item under the cursor, `none` when
the cursor is out of range (the bubbles list returns `nil` then, and the
type assertion fails). -/
def todoSelectedItem (m : TodoModel) : Option TodoTask :=
  m.items.get? m.index

/-- The confirm (`SaveTask`/`Confirm` key) handler of the todo `Update` in
the `Adding`/`Editing` sub-states: `Adding` appends a new task built from
the input value unless the input is empty; `Editing` replaces the selected
task's title with the input value (whatever it is) whenever a task is
selected. Both then reset the input, return to `Default`, and save. -/
def todoConfirm (m : TodoModel) : TodoModel :=
  let m' : TodoModel :=
    if m.state = ListState.adding then
      if m.input ≠ "" then
        { m with items := m.items ++ [⟨m.input, "", false⟩] }
      else m
    else
      match todoSelectedItem m with
      | some t => { m with items := m.items.set m.index { t with title := m.input } }
      | none => m
  { m' with input := "", state := ListState.default }

/-! ## Top-level dashboard dispatch (`main.go`) -/

/-- Panel focus (`focusState`): `focusList`, `focusNotes`, `focusCalendar`. -/
inductive Focus where
  | tasks
  | notes
  | cal
deriving DecidableEq, Repr

/-- The message kinds relevant to passive-tick dispatch. -/
inductive PMsg where
  | clockTick
  | spinnerTick
  | keyMsg (s : String)
  | other
deriving DecidableEq, Repr

/-- The clock sub-model (`clock.Model`), observed through how many tick
messages it has received: `clock.Update` reacts exactly to `TickMsg`. -/
structure ClockM where
  ticks : Nat
deriving DecidableEq, Repr

/-- `clock.Update`: a `TickMsg` advances the clock; anything else is
ignored. -/
def clockUpdate (c : ClockM) (msg : PMsg) : ClockM :=
  match msg with
  | PMsg.clockTick => ⟨c.ticks + 1⟩
  | _ => c

/-- The first statement of the calendar `Update` body after the message
switch: `m.clock, cmd = m.clock.Update(msg)` — unconditional, before the
`if focused` block, so the clock sees every message the calendar panel is
handed regardless of focus. -/
def calendarUpdateClock (clock : ClockM) (msg : PMsg) (focused : Bool) : ClockM :=
  clockUpdate clock msg

/-- The dashboard state relevant to message delivery: the focus, the todo
sub-state, per-panel delivered-message counters, and the calendar's clock. -/
structure DashModel where
  focus : Focus
  todoState : ListState
  todoMsgs : Nat
  notesMsgs : Nat
  calMsgs : Nat
  calClock : ClockM
deriving DecidableEq, Repr

/-- The message-delivery skeleton of `updateDashboard`: when the todo panel
is in its `Adding` or `Editing` sub-state the function updates only the todo
panel and returns early; otherwise it updates all three panels (todo, notes,
calendar) with their respective focus flags, and the calendar update feeds
the message to its clock. -/
def updateDashboardDeliver (m : DashModel) (msg : PMsg) : DashModel :=
  if m.todoState = ListState.adding ∨ m.todoState = ListState.editing then
    { m with todoMsgs := m.todoMsgs + 1 }
  else
    { m with
        todoMsgs := m.todoMsgs + 1
        notesMsgs := m.notesMsgs + 1
        calMsgs := m.calMsgs + 1
        calClock := calendarUpdateClock m.calClock msg (m.focus = Focus.cal) }

/-- The horizontal boundary `updateDashboard` uses to classify a left-button
mouse press: `leftColumnWidth := m.width * 2 / 5`. -/
def clickLeftColumnWidth (width : Nat) : Nat := width * 2 / 5

/-- The horizontal boundary at which `viewDashboard` actually renders the
left column: `leftColumnWidth := m.width / 2`. -/
def renderedLeftColumnWidth (width : Nat) : Nat := width / 2

/-- The mouse-press focus resolution of `updateDashboard`: clicks left of
`clickLeftColumnWidth` focus tasks (upper half) or the calendar (lower
half); clicks at or right of it focus notes. -/
def resolveFocusClick (width height x y : Nat) : Focus :=
  if x < clickLeftColumnWidth width then
    if y < height / 2 then Focus.tasks else Focus.cal
  else Focus.notes

/-! ## Settings (`internal/config/config.go`) -/

/-- The persisted settings record (`config.Settings`). -/
structure Settings where
  location : String
  defaultNotesCreated : Bool
deriving DecidableEq, Repr

/-- The outcome of `os.ReadFile` on the settings (or task) file: the file
does not exist, some other read error, or the file's contents. -/
inductive ReadResult where
  | notExist
  | otherErr
  | content (s : String)
deriving DecidableEq, Repr

/-- The error cases `LoadSettings` can return. -/
inductive LoadErr where
  | readErr
  | writeErr
  | parseErr
deriving DecidableEq, Repr

/-- `config.LoadSettings`, over the result of reading the settings file.
`parse` models `json.Unmarshal` into `Settings` (`none` = unmarshal error);
`writeOk` models whether writing the freshly created default file succeeds.
Missing file: write and return the defaults `{Athens, false}`. Other read
error: return it. Otherwise unmarshal the content — an unmarshal error is
returned — and patch an empty location to "Athens". -/
def loadSettings (parse : String → Option Settings) (writeOk : Bool) :
    ReadResult → Except LoadErr Settings
  | ReadResult.notExist =>
    if writeOk then Except.ok ⟨"Athens", false⟩ else Except.error LoadErr.writeErr
  | ReadResult.otherErr => Except.error LoadErr.readErr
  | ReadResult.content s =>
    match parse s with
    | none => Except.error LoadErr.parseErr
    | some st =>
      if st.location = "" then Except.ok { st with location := "Athens" }
      else Except.ok st

/-! ## TodoTask loading (`widgets/todo/todo.go`, `loadTasks`) -/

/-- The eight default welcome tasks written on first run (`loadTasks`). Only
`Title` is set; `Description` and `Done` take their zero values. -/
def defaultTasks : List TodoTask :=
  [⟨"Welcome to GoDash!", "", false⟩,
   ⟨"Press 'o' to add a new task", "", false⟩,
   ⟨"Press 'i' to edit a task", "", false⟩,
   ⟨"Use the arrow keys to navigate", "", false⟩,
   ⟨"Press 'space' to complete a task", "", false⟩,
   ⟨"Press 'enter' to confirm edit", "", false⟩,
   ⟨"Press 'esc' to cancel edit", "", false⟩,
   ⟨"Press 'ctrl+d' to delete a task", "", false⟩]

/-- `todo.loadTasks`, over the result of reading the task file. `parse`
models `json.Unmarshal` into `[]task`: `none` when the input is not valid
JSON (Go's `Unmarshal` validates the whole input first and leaves the slice
`nil`), `some ts` for the decoded list. Returns the loaded tasks together
with the list persisted back to the file (`saveTasks`), when any. The
function has no error result: every failure path yields a task list. -/
def loadTasks (parse : String → Option (List TodoTask)) :
    ReadResult → List TodoTask × Option (List TodoTask)
  | ReadResult.notExist => (defaultTasks, some defaultTasks)
  | ReadResult.otherErr => ([], none)
  | ReadResult.content s => ((parse s).getD [], none)

/-! ## Notes first-run seeding (`widgets/notes`) -/

/-- `notes.sanitizeFilename`: replace spaces with hyphens, strip every
character outside `[a-zA-Z0-9-]`, and fall back to "untitled-note" when
nothing remains. -/
def sanitizeFilename (name : String) : String :=
  let hyphened := name.toList.map (fun c => if c = ' ' then '-' else c)
  let kept := hyphened.filter (fun c => c.isAlpha || c.isDigit || c = '-')
  if kept.isEmpty then "untitled-note" else String.mk kept

/-- `notes.createDefaultNotes`: writes exactly two markdown documents — the
welcome note and the keybinding reference — whose filenames are the
sanitized titles plus ".md". Modelled by the list of filenames written
(the documents' bodies play no role in the claims). -/
def createDefaultNotes : List String :=
  [sanitizeFilename "01 Welcome to GoDash" ++ ".md",
   sanitizeFilename "02 Keybindings for the entire GoDash app" ++ ".md"]

/-- The first-run seeding step of `notes.loadNotes`: when the note directory
holds zero markdown files, `LoadSettings` succeeded, and the persisted
`DefaultNotesCreated` flag is false, write the two default notes and save
the settings back with the flag set to true; in every other case — files
present, the flag already set, or a settings load error — write nothing and
do not rewrite the settings. Returns the filenames written and the settings
record saved, if any. -/
def loadNotesSeed (mdFileCount : Nat) (settingsResult : Except LoadErr Settings) :
    List String × Option Settings :=
  if mdFileCount = 0 then
    match settingsResult with
    | Except.ok settings =>
      if settings.defaultNotesCreated = false then
        (createDefaultNotes, some { settings with defaultNotesCreated := true })
      else ([], none)
    | Except.error _ => ([], none)
  else ([], none)

/-! ## Concrete instances used by witnesses and counterexamples -/

/-- A parse-function pair that fails on every input; the witnesses only
apply it where a parse failure is the case of interest. -/
def parseNone : ParseFuns := ⟨fun _ => none, fun _ => none⟩

/-- A fresh calendar state: empty cache, nothing in flight, last fetch
initiation at time 0, January 1 2025 selected. -/
def calM0 : CalModel :=
  { cachedEvents := []
    fetchingMonths := []
    lastFetchTime := 0
    selectedDate := ⟨2025, 1, 1⟩
    events := []
    loading := false }

/-- A calendar state whose cache holds November 2025 with an empty event
list (cached, but zero events). -/
def calM1 : CalModel :=
  { cachedEvents := [("2025-11", [])]
    fetchingMonths := []
    lastFetchTime := 0
    selectedDate := ⟨2025, 1, 1⟩
    events := []
    loading := false }

/-- A calendar state selecting November 5 2025 with that month cached: one
event on the 5th, one on the 6th, one with an unparseable start. -/
def calM2 : CalModel :=
  { cachedEvents :=
      [("2025-11",
        [⟨"standup", ⟨"", "2025-11-05"⟩⟩,
         ⟨"review", ⟨"", "2025-11-06"⟩⟩,
         ⟨"broken", ⟨"", "not-a-date"⟩⟩])]
    fetchingMonths := []
    lastFetchTime := 0
    selectedDate := ⟨2025, 11, 5⟩
    events := []
    loading := false }

/-- A parse-function pair that reads the all-day layout "YYYY-MM-DD" for
the three concrete strings appearing in `calM2`, like `time.Parse` would. -/
def parseDemo : ParseFuns :=
  ⟨fun _ => none,
   fun s =>
     if s = "2025-11-05" then some ⟨2025, 11, 5⟩
     else if s = "2025-11-06" then some ⟨2025, 11, 6⟩
     else none⟩

/-- A todo panel in `Editing` with one task "A" selected and an empty text
input. -/
def todoM0 : TodoModel :=
  { items := [⟨"A", "", false⟩], index := 0, input := "", state := ListState.editing }

/-- A todo panel in `Adding` with an empty list and an empty text input. -/
def todoM1 : TodoModel :=
  { items := [], index := 0, input := "", state := ListState.adding }

/-- A dashboard whose todo panel is in `Adding`, calendar unfocused. -/
def dashM0 : DashModel :=
  { focus := Focus.notes, todoState := ListState.adding
    todoMsgs := 0, notesMsgs := 0, calMsgs := 0, calClock := ⟨0⟩ }

/-- A dashboard whose todo panel is in `Default`, notes focused. -/
def dashM1 : DashModel :=
  { focus := Focus.notes, todoState := ListState.default
    todoMsgs := 0, notesMsgs := 0, calMsgs := 0, calClock := ⟨0⟩ }

/-- A stand-in for `json.Unmarshal` into `Settings` that fails on every
input; the claims only evaluate it at the empty string, where any model of
`encoding/json` must fail ("unexpected end of JSON input"). -/
def settingsParseNone : String → Option Settings := fun _ => none

/-- A stand-in for `json.Unmarshal` into `[]task` that fails on every input;
the claims only evaluate it at syntactically invalid JSON, where
`encoding/json` fails having left the slice `nil`. -/
def tasksParseNone : String → Option (List TodoTask) := fun _ => none

/-! ## Helper lemmas -/

theorem mapGet_mapSet_self {α : Type} (m : List (String × α)) (k : String) (v : α) :
    mapGet (mapSet m k v) k = some v := by
  induction m with
  | nil => simp [mapSet, mapGet]
  | cons h t ih =>
    by_cases hk : h.1 = k
    · simp [mapSet, hk, mapGet]
    · simp [mapSet, hk, mapGet, ih]

/-- The filter loop of `filterEventsForSelectedDate` is `List.filter` with
the start-on-selected-day predicate. -/
theorem dailyEvents_eq_filter (P : ParseFuns) (sel : Date) (l : List Event) :
    dailyEvents P sel l
      = l.filter (fun e =>
          match eventStartDate P e with
          | some d => sameYMD d sel
          | none => false) := by
  induction l with
  | nil => rfl
  | cons e rest ih =>
    simp only [dailyEvents, List.filter_cons]
    cases h : eventStartDate P e with
    | none => simp [h, ih]
    | some d =>
      by_cases hd : sameYMD d sel = true
      · simp [h, hd, ih]
      · simp [h, hd, ih]

/-! ## Claim theorems -/

/-- C1: Cooldown policy for calendar fetches. At any point of any sequence
of date-navigation steps (the state `m` is arbitrary), a navigation to a
different uncached month that is not in-flight initiates no fetch while less
than the 5-second cooldown has elapsed since the last fetch initiation
(cache, in-flight set and initiation time are untouched, so the navigation
is deferred, not consumed); and a later navigation to that month, once more
than 5 seconds have elapsed and the month is still uncached and not
in-flight, does initiate a fetch, marks the month in-flight and records the
initiation time. -/
theorem navStep_cooldown_policy (P : ParseFuns) (m : CalModel) (d : Date) (now : Int)
    (hchange : sameYMD d m.selectedDate = false)
    (hu : mapGet m.cachedEvents (monthKey d) = none)
    (hf : boolMapGet m.fetchingMonths (monthKey d) = false) :
    (now - m.lastFetchTime < fetchCoolDown →
      (navStep P m d now).2 = false
        ∧ (navStep P m d now).1.cachedEvents = m.cachedEvents
        ∧ (navStep P m d now).1.fetchingMonths = m.fetchingMonths
        ∧ (navStep P m d now).1.lastFetchTime = m.lastFetchTime)
    ∧ (now - m.lastFetchTime > fetchCoolDown →
      (navStep P m d now).2 = true
        ∧ boolMapGet (navStep P m d now).1.fetchingMonths (monthKey d) = true
        ∧ (navStep P m d now).1.lastFetchTime = now) := by
  simp only [boolMapGet] at hf
  constructor
  · intro hlt
    have hngt : ¬ now - m.lastFetchTime > fetchCoolDown := not_lt_of_gt hlt
    simp [navStep, hchange, hu, hf, hngt, boolMapGet]
  · intro hgt
    simp [navStep, hchange, hu, hf, hgt, boolMapGet, mapGet_mapSet_self]

/-- Witness for `navStep_cooldown_policy`: from the fresh state, navigating
to November 2025 at 3ns initiates nothing; navigating at 6s initiates a
fetch, marks "2025-11" in-flight and records the time. -/
theorem navStep_cooldown_policy_witness :
    (navStep parseNone calM0 ⟨2025, 11, 1⟩ 3).2 = false
      ∧ (navStep parseNone calM0 ⟨2025, 11, 1⟩ 6000000000).2 = true
      ∧ boolMapGet (navStep parseNone calM0 ⟨2025, 11, 1⟩ 6000000000).1.fetchingMonths
          (monthKey ⟨2025, 11, 1⟩) = true
      ∧ (navStep parseNone calM0 ⟨2025, 11, 1⟩ 6000000000).1.lastFetchTime = 6000000000 := by
  refine ⟨((navStep_cooldown_policy parseNone calM0 ⟨2025, 11, 1⟩ 3
      (by decide) rfl rfl).1 (by decide)).1, ?_⟩
  have h := (navStep_cooldown_policy parseNone calM0 ⟨2025, 11, 1⟩ 6000000000
      (by decide) rfl rfl).2 (by decide)
  exact ⟨h.1, h.2.1, h.2.2⟩

/-- C2: Cache-hit idempotence. Navigating to a date whose "YYYY-MM" month
key is already in the cache (possibly with an empty event list) initiates no
fetch, leaves the cache map, the in-flight set and the last initiation time
unchanged, clears loading, and recomputes only the displayed day's events by
refiltering the cached month data. -/
theorem navStep_cache_hit (P : ParseFuns) (m : CalModel) (d : Date) (now : Int)
    (evs : List Event)
    (hchange : sameYMD d m.selectedDate = false)
    (hc : mapGet m.cachedEvents (monthKey d) = some evs) :
    (navStep P m d now).2 = false
      ∧ (navStep P m d now).1.cachedEvents = m.cachedEvents
      ∧ (navStep P m d now).1.fetchingMonths = m.fetchingMonths
      ∧ (navStep P m d now).1.lastFetchTime = m.lastFetchTime
      ∧ (navStep P m d now).1.loading = false
      ∧ (navStep P m d now).1.events = dailyEvents P d evs := by
  simp [navStep, hchange, hc, filterEventsForSelectedDate]

/-- Witness for `navStep_cache_hit`: navigating to November 5 2025 with
"2025-11" cached as an empty month triggers no fetch and leaves the (empty)
cache entry in place. -/
theorem navStep_cache_hit_witness :
    (navStep parseNone calM1 ⟨2025, 11, 5⟩ 3).2 = false
      ∧ (navStep parseNone calM1 ⟨2025, 11, 5⟩ 3).1.cachedEvents = calM1.cachedEvents
      ∧ (navStep parseNone calM1 ⟨2025, 11, 5⟩ 3).1.events = [] := by
  have h := navStep_cache_hit parseNone calM1 ⟨2025, 11, 5⟩ 3 []
      (by decide) (by decide)
  exact ⟨h.1, h.2.1, h.2.2.2.2.2⟩

/-- C3: Daily filtering. Whenever the selected date's month is cached,
`filterEventsForSelectedDate` sets the daily event list to exactly those
cached events whose start — the RFC3339 `DateTime` field when non-empty,
otherwise the all-day `Date` field — parses successfully to the selected
date's year, month and day; the result is a sublist of the cached list
(original relative order preserved) and unparseable starts are skipped. -/
theorem filterEvents_daily_exact (P : ParseFuns) (m : CalModel) (evs : List Event)
    (hc : mapGet m.cachedEvents (monthKey m.selectedDate) = some evs) :
    (filterEventsForSelectedDate P m).events
      = evs.filter (fun e =>
          match eventStartDate P e with
          | some d => sameYMD d m.selectedDate
          | none => false)
      ∧ List.Sublist (filterEventsForSelectedDate P m).events evs := by
  have he : (filterEventsForSelectedDate P m).events = dailyEvents P m.selectedDate evs := by
    simp [filterEventsForSelectedDate, hc]
  rw [he, dailyEvents_eq_filter]
  exact ⟨rfl, List.filter_sublist evs⟩

/-- Witness for `filterEvents_daily_exact`: of the three cached November
events, exactly the one on the selected 5th survives; the all-day event on
the 6th and the unparseable one are dropped. -/
theorem filterEvents_daily_exact_witness :
    (filterEventsForSelectedDate parseDemo calM2).events
        = [⟨"standup", ⟨"", "2025-11-05"⟩⟩]
      ∧ List.Sublist (filterEventsForSelectedDate parseDemo calM2).events
          [⟨"standup", ⟨"", "2025-11-05"⟩⟩,
           ⟨"review", ⟨"", "2025-11-06"⟩⟩,
           ⟨"broken", ⟨"", "not-a-date"⟩⟩] := by
  have h := filterEvents_daily_exact parseDemo calM2
      [⟨"standup", ⟨"", "2025-11-05"⟩⟩,
       ⟨"review", ⟨"", "2025-11-06"⟩⟩,
       ⟨"broken", ⟨"", "not-a-date"⟩⟩] (by decide)
  refine ⟨?_, h.2⟩
  rw [h.1]
  decide

/-- C4 counterexample: confirming from `Editing` with an empty input buffer
does change the task list — the selected task's title "A" is overwritten
with the empty string — so the claim that the list is left unchanged and no
title is overwritten fails at this input. -/
theorem todoConfirm_empty_edit_cex :
    (todoConfirm todoM0).items ≠ todoM0.items
      ∧ (todoConfirm todoM0).items = [⟨"", "", false⟩]
      ∧ (todoConfirm todoM0).state = ListState.default := by
  decide

/-- C4 (amended): confirming from `Adding` with an empty input buffer leaves
the task list unchanged, resets the input and returns to `Default`;
confirming from `Editing` with an empty input buffer also returns to
`Default` without error, but when a task is selected it overwrites that
task's title with the empty string (the list is unchanged only when nothing
is selected). -/
theorem todoConfirm_empty_input (m : TodoModel) (h : m.input = "") :
    (m.state = ListState.adding →
      (todoConfirm m).items = m.items
        ∧ (todoConfirm m).state = ListState.default
        ∧ (todoConfirm m).input = "")
    ∧ (m.state = ListState.editing →
      (todoConfirm m).state = ListState.default
        ∧ (todoConfirm m).items
            = (match todoSelectedItem m with
               | some t => m.items.set m.index { t with title := "" }
               | none => m.items)) := by
  constructor
  · intro hs
    simp [todoConfirm, hs, h]
  · intro hs
    have hne : m.state ≠ ListState.adding := by simp [hs]
    cases hsel : todoSelectedItem m with
    | none => simp [todoConfirm, hne, hsel, h]
    | some t => simp [todoConfirm, hne, hsel, h]

/-- Witness for `todoConfirm_empty_input`: the `Adding` case on an empty
list and the `Editing` case on the one-task panel. -/
theorem todoConfirm_empty_input_witness :
    (todoConfirm todoM1).items = []
      ∧ (todoConfirm todoM1).state = ListState.default
      ∧ (todoConfirm todoM0).state = ListState.default
      ∧ (todoConfirm todoM0).items = [⟨"", "", false⟩] := by
  have h1 := (todoConfirm_empty_input todoM1 rfl).1 rfl
  have h2 := (todoConfirm_empty_input todoM0 rfl).2 rfl
  refine ⟨h1.1, h1.2.1, h2.1, ?_⟩
  rw [h2.2]
  decide

/-- C5 counterexample: with the todo panel in `Adding` (calendar unfocused,
but the focus value is irrelevant), dispatching a clock tick to the
dashboard leaves the calendar clock's received-tick count unchanged — the
calendar panel does not receive passive ticks in that sub-mode. -/
theorem dashboard_tick_adding_cex :
    (updateDashboardDeliver dashM0 PMsg.clockTick).calClock.ticks
        = dashM0.calClock.ticks
      ∧ ¬ (updateDashboardDeliver dashM0 PMsg.clockTick).calClock.ticks
            = dashM0.calClock.ticks + 1 := by
  decide

/-- C5 (amended): in dashboard mode, whenever the todo panel is in its
`Default` sub-state, every panel receives the message — in particular the
calendar's clock receives each clock tick — regardless of which panel is
focused; but while the todo panel is in `Adding` or `Editing`, only the todo
panel receives messages, so the calendar clock receives no ticks then. -/
theorem dashboard_passive_ticks (m : DashModel) :
    (m.todoState = ListState.default →
      (updateDashboardDeliver m PMsg.clockTick).calClock.ticks = m.calClock.ticks + 1
        ∧ (updateDashboardDeliver m PMsg.clockTick).todoMsgs = m.todoMsgs + 1
        ∧ (updateDashboardDeliver m PMsg.clockTick).notesMsgs = m.notesMsgs + 1
        ∧ (updateDashboardDeliver m PMsg.clockTick).calMsgs = m.calMsgs + 1)
    ∧ ((m.todoState = ListState.adding ∨ m.todoState = ListState.editing) →
      (updateDashboardDeliver m PMsg.clockTick).calClock = m.calClock
        ∧ (updateDashboardDeliver m PMsg.clockTick).notesMsgs = m.notesMsgs
        ∧ (updateDashboardDeliver m PMsg.clockTick).calMsgs = m.calMsgs
        ∧ (updateDashboardDeliver m PMsg.clockTick).todoMsgs = m.todoMsgs + 1) := by
  constructor
  · intro hs
    simp [updateDashboardDeliver, hs, calendarUpdateClock, clockUpdate]
  · intro hs
    rcases hs with hs | hs <;> simp [updateDashboardDeliver, hs]

/-- Witness for `dashboard_passive_ticks`: with todo in `Default` the
(unfocused) calendar clock ticks; with todo in `Adding` it does not. -/
theorem dashboard_passive_ticks_witness :
    (updateDashboardDeliver dashM1 PMsg.clockTick).calClock.ticks = 1
      ∧ (updateDashboardDeliver dashM0 PMsg.clockTick).calClock = dashM0.calClock := by
  have h1 := (dashboard_passive_ticks dashM1).1 rfl
  have h2 := (dashboard_passive_ticks dashM0).2 (Or.inl rfl)
  exact ⟨h1.1, h2.1⟩

/-- C6 counterexample: at terminal width 10 the click classifier's boundary
(`10 * 2 / 5 = 4`) differs from the rendered left-column boundary
(`10 / 2 = 5`); a left press at column 4, row 0 — inside the upper half of
the rendered left column — focuses notes, not tasks, so the claimed
coincidence of the two boundaries fails. -/
theorem click_focus_boundary_cex :
    clickLeftColumnWidth 10 ≠ renderedLeftColumnWidth 10
      ∧ resolveFocusClick 10 8 4 0 = Focus.notes
      ∧ 4 < renderedLeftColumnWidth 10
      ∧ 0 < 8 / 2 := by
  decide

/-- C6 (amended): a left press focuses tasks when it lies left of the
classifier boundary `⌊2·width/5⌋` in the upper half of the terminal, the
calendar in the lower half, and notes at or right of that boundary; this
classifier boundary does not coincide with the boundary `⌊width/2⌋` at
which the left column is actually rendered (they differ at width 10). -/
theorem resolveFocusClick_regions (width height x y : Nat) :
    (x < clickLeftColumnWidth width → y < height / 2 →
        resolveFocusClick width height x y = Focus.tasks)
    ∧ (x < clickLeftColumnWidth width → ¬ y < height / 2 →
        resolveFocusClick width height x y = Focus.cal)
    ∧ (¬ x < clickLeftColumnWidth width →
        resolveFocusClick width height x y = Focus.notes)
    ∧ clickLeftColumnWidth 10 ≠ renderedLeftColumnWidth 10 := by
  refine ⟨fun hx hy => ?_, fun hx hy => ?_, fun hx => ?_, by decide⟩
  · simp [resolveFocusClick, hx, hy]
  · simp [resolveFocusClick, hx, hy]
  · simp [resolveFocusClick, hx]

/-- Witness for `resolveFocusClick_regions`: the three regions at a 100×40
terminal. -/
theorem resolveFocusClick_regions_witness :
    resolveFocusClick 100 40 10 5 = Focus.tasks
      ∧ resolveFocusClick 100 40 10 30 = Focus.cal
      ∧ resolveFocusClick 100 40 60 5 = Focus.notes := by
  exact ⟨(resolveFocusClick_regions 100 40 10 5).1 (by decide) (by decide),
         (resolveFocusClick_regions 100 40 10 30).2.1 (by decide) (by decide),
         (resolveFocusClick_regions 100 40 60 5).2.2.1 (by decide)⟩

/-- C7: Seed-note creation happens at most once. Loading the note list with
zero markdown files present and loaded settings carrying
`default_notes_created = false` writes exactly the two seed documents — the
welcome note and the keybinding reference — and saves the settings back
with the flag set to true; loading with zero markdown files but the flag
already true writes zero documents and does not rewrite the settings. -/
theorem loadNotes_seed_once (st : Settings) :
    (st.defaultNotesCreated = false →
      (loadNotesSeed 0 (Except.ok st)).1
          = ["01-Welcome-to-GoDash.md",
             "02-Keybindings-for-the-entire-GoDash-app.md"]
        ∧ (loadNotesSeed 0 (Except.ok st)).1.length = 2
        ∧ (loadNotesSeed 0 (Except.ok st)).2
            = some { st with defaultNotesCreated := true })
    ∧ (st.defaultNotesCreated = true →
      (loadNotesSeed 0 (Except.ok st)).1 = []
        ∧ (loadNotesSeed 0 (Except.ok st)).2 = none) := by
  have hcd : createDefaultNotes
      = ["01-Welcome-to-GoDash.md",
         "02-Keybindings-for-the-entire-GoDash-app.md"] := by
    decide
  constructor
  · intro hf
    simp [loadNotesSeed, hf, hcd]
  · intro hf
    simp [loadNotesSeed, hf]

/-- Witness for `loadNotes_seed_once`: both flag values at an empty note
directory with successfully loaded settings. -/
theorem loadNotes_seed_once_witness :
    (loadNotesSeed 0 (Except.ok ⟨"Athens", false⟩)).1.length = 2
      ∧ (loadNotesSeed 0 (Except.ok ⟨"Athens", false⟩)).2
          = some ⟨"Athens", true⟩
      ∧ (loadNotesSeed 0 (Except.ok ⟨"Athens", true⟩)).1 = []
      ∧ (loadNotesSeed 0 (Except.ok ⟨"Athens", true⟩)).2 = none := by
  have h1 := (loadNotes_seed_once ⟨"Athens", false⟩).1 rfl
  have h2 := (loadNotes_seed_once ⟨"Athens", true⟩).2 rfl
  exact ⟨h1.2.1, h1.2.2, h2.1, h2.2⟩

/-- C8 counterexample: with the settings file present but empty (zero
bytes), `LoadSettings` returns an unmarshal error, not the defaults — Go's
`json.Unmarshal` rejects empty input, modelled by a parse function that is
`none` at `""` — while the missing-file case does return the defaults. -/
theorem loadSettings_empty_file_cex :
    loadSettings settingsParseNone true (ReadResult.content "")
        = Except.error LoadErr.parseErr
      ∧ loadSettings settingsParseNone true ReadResult.notExist
        = Except.ok ⟨"Athens", false⟩ := by
  exact ⟨rfl, rfl⟩

/-- C8 (amended): when the settings file is missing (and the freshly written
default file write succeeds) `LoadSettings` returns the documented defaults
— Location "Athens", DefaultNotesCreated false — without error; but when the
file exists and is empty (zero bytes), the JSON unmarshal fails and
`LoadSettings` returns that error instead of the defaults. -/
theorem loadSettings_defaults (parse : String → Option Settings)
    (hp : parse "" = none) :
    loadSettings parse true ReadResult.notExist = Except.ok ⟨"Athens", false⟩
      ∧ loadSettings parse true (ReadResult.content "")
          = Except.error LoadErr.parseErr := by
  constructor
  · rfl
  · simp [loadSettings, hp]

/-- Witness for `loadSettings_defaults` at the all-failing unmarshal
stand-in. -/
theorem loadSettings_defaults_witness :
    loadSettings settingsParseNone true ReadResult.notExist
        = Except.ok ⟨"Athens", false⟩
      ∧ loadSettings settingsParseNone true (ReadResult.content "")
          = Except.error LoadErr.parseErr := by
  exact ⟨(loadSettings_defaults settingsParseNone rfl).1,
         (loadSettings_defaults settingsParseNone rfl).2⟩

/-- C9: loading tasks from a nonexistent file returns exactly the eight
default welcome tasks — all with `Done = false` and empty `Description` —
and persists those same eight tasks; any other read error yields the empty
list, as does content that is not parseable JSON; the function's result type
carries no error, so no case reports one. -/
theorem loadTasks_never_errors (parse : String → Option (List TodoTask))
    (s : String) (hp : parse s = none) :
    loadTasks parse ReadResult.notExist = (defaultTasks, some defaultTasks)
      ∧ defaultTasks.length = 8
      ∧ (∀ t ∈ defaultTasks, t.done = false ∧ t.description = "")
      ∧ loadTasks parse ReadResult.otherErr = ([], none)
      ∧ loadTasks parse (ReadResult.content s) = ([], none) := by
  refine ⟨rfl, rfl, by decide, rfl, ?_⟩
  simp [loadTasks, hp]

/-- Witness for `loadTasks_never_errors` at the all-failing unmarshal
stand-in and a non-JSON file content. -/
theorem loadTasks_never_errors_witness :
    loadTasks tasksParseNone ReadResult.notExist = (defaultTasks, some defaultTasks)
      ∧ loadTasks tasksParseNone (ReadResult.content "not valid json") = ([], none) := by
  have h := loadTasks_never_errors tasksParseNone "not valid json" rfl
  exact ⟨h.1, h.2.2.2.2⟩
